import Mathlib

/-!
# The Lua entry point `chiCutMesh` of the mesh cutter

Shallow embedding of `lua/framework/mesh/mesh_cutting/cut_mesh.cc`.

The entry point reads its arguments from the Lua stack, fetches the grid of the
current mesh handler and forwards a plane and two tolerances to
`chi_mesh::mesh_cutting::CutMeshWithPlane`.  An execution is recorded as

* the world after the call (the current handler and its grid),
* the trace of the external calls that touch the mesh registry or the mesh,
* the way the call completed (returned 0, raised an error, or ran into
  undefined behaviour).

The statements of the body are embedded in source order, one `match` or `if`
per statement that can leave the function.
-/

namespace OpenSn

/-! ## Values -/

/-- A C++ `double` (and a Lua number).  The entry point stores, forwards and
compares such values and performs no arithmetic on them, so they are embedded
as exact rationals. -/
abbrev Double := ℚ

/-- The literal `1.0e-3` of line 26. -/
def default_merge_tolerance : Double := 1 / 1000

/-- The literal `1.0e-10` of line 27. -/
def default_float_compare : Double := 1 / 10000000000

/-- A value on the Lua stack.  A string carries the number it converts to (if
it is a numeral); a table is given by the numeric values of its array entries
`1 .. rawlen`. -/
inductive LuaValue
  | nil
  | boolean (b : Bool)
  | number (x : Double)
  | string (numeral : Option Double)
  | table (arr : List Double)
  deriving DecidableEq, Repr

/-- The stack of a Lua C function on entry: exactly the arguments of the call,
argument 1 first. -/
abbrev lua_State := List LuaValue

/-- Value at the (positive, 1-based) stack index `idx`, if the index is valid. -/
def lua_State.at (L : lua_State) (idx : Nat) : Option LuaValue :=
  if idx = 0 then none else L.get? (idx - 1)

/-- The Lua API call `lua_gettop`: number of elements on the stack. -/
def lua_gettop (L : lua_State) : Nat := L.length

/-- The Lua API call `lua_isnil`. -/
def lua_isnil (L : lua_State) (idx : Nat) : Bool :=
  match L.at idx with
  | some LuaValue.nil => true
  | _ => false

/-- The Lua API call `lua_tonumber`: the number itself, the value of a numeral
string, and `0` for everything else. -/
def lua_tonumber (L : lua_State) (idx : Nat) : Double :=
  match L.at idx with
  | some (LuaValue.number x) => x
  | some (LuaValue.string (some x)) => x
  | _ => 0

/-- The class `chi_mesh::Vector3`, built by its three-component constructor. -/
structure Vector3 where
  x : Double
  y : Double
  z : Double
  deriving DecidableEq, Repr

/-! ## Errors, traces, executions -/

/-- The errors a call can raise. -/
inductive LuaError
  | ArgAmount (fname : String) (expected : Nat) (given : Nat)
  | ArgNil (fname : String) (arg : Nat)
  | ArgArray (fname : String) (arg : Nat)
  | NoActiveMesh
  deriving DecidableEq, Repr

/-- The `InvalidArgument` class of the error taxonomy: the three errors raised
by the argument helpers. -/
def LuaError.isInvalidArgument : LuaError → Bool
  | LuaError.ArgAmount _ _ _ => true
  | LuaError.ArgNil _ _ => true
  | LuaError.ArgArray _ _ => true
  | LuaError.NoActiveMesh => false

/-- One invocation of `CutMeshWithPlane`, with the five actual arguments. -/
structure CutCall (M : Type) where
  mesh : M
  plane_point : Vector3
  plane_normal : Vector3
  merge_tolerance : Double
  float_compare : Double
  deriving DecidableEq, Repr

/-- The external calls of lines 34, 36 and 41. -/
inductive Event (M : Type)
  | GetCurrentHandler
  | GetGrid
  | CutMeshWithPlane (call : CutCall M)
  deriving DecidableEq, Repr

/-- How a call of the entry point ends. -/
inductive Completion
  | returned (n : Int)
  | raised (e : LuaError)
  | undefinedBehaviour
  deriving DecidableEq, Repr

/-- A mesh handler: it holds the grid, or nothing when no mesh is loaded. -/
structure MeshHandler (M : Type) where
  grid : Option M
  deriving DecidableEq, Repr

/-- The mesh registry: the handler that is current. -/
structure World (M : Type) where
  current_handler : MeshHandler M
  deriving DecidableEq, Repr

/-- An execution of the entry point. -/
structure Exec (M : Type) where
  world : World M
  trace : List (Event M)
  completion : Completion
  deriving DecidableEq, Repr

/-- The invocations of `CutMeshWithPlane` in a trace, in order. -/
def cutCalls {M : Type} : List (Event M) → List (CutCall M)
  | [] => []
  | Event.CutMeshWithPlane c :: rest => c :: cutCalls rest
  | _ :: rest => cutCalls rest

/-- Whether the mesh handler was fetched in a trace. -/
def fetchesHandler {M : Type} : List (Event M) → Bool
  | [] => false
  | Event.GetCurrentHandler :: _ => true
  | _ :: rest => fetchesHandler rest

/-! ## Helpers called by the entry point -/

/-- Modelled from the spec: `LuaPostArgAmountError` (framework/lua.h, absent) is
the argument-amount error; it reports the function, the expected and the given
number of arguments and does not return. -/
def LuaPostArgAmountError (fname : String) (expected given : Nat) : LuaError :=
  LuaError.ArgAmount fname expected given

/-- Modelled from the spec: `LuaCheckNilValue` (framework/lua.h, absent) raises
an argument error when the value at stack index `arg` is nil and returns
otherwise. -/
def LuaCheckNilValue (fname : String) (L : lua_State) (arg : Nat) : Except LuaError Unit :=
  if lua_isnil L arg then Except.error (LuaError.ArgNil fname arg) else Except.ok ()

/-- Modelled from the spec: `LuaPopulateVectorFrom1DArray` (framework/lua.h,
absent) fills the vector with the numeric entries of the table at stack index
`arg`, and raises an argument error when the value there cannot be parsed as an
array. -/
def LuaPopulateVectorFrom1DArray (fname : String) (L : lua_State) (arg : Nat) :
    Except LuaError (List Double) :=
  match L.at arg with
  | some (LuaValue.table arr) => Except.ok arr
  | _ => Except.error (LuaError.ArgArray fname arg)

/-- Modelled from the spec: `chi_mesh::GetCurrentHandler` (mesh_handler.h,
absent) returns the handler the registry holds as current. -/
def GetCurrentHandler {M : Type} (w : World M) : MeshHandler M := w.current_handler

/-- Modelled from the spec: `MeshHandler::GetGrid` (mesh_handler.h, absent)
returns the grid, and fails with `NoActiveMesh` when no mesh is loaded. -/
def MeshHandler.GetGrid {M : Type} (h : MeshHandler M) : Except LuaError M :=
  match h.grid with
  | some g => Except.ok g
  | none => Except.error LuaError.NoActiveMesh

/-- The unchecked `std::vector::operator[]`: no value outside the bounds. -/
def vectorAt (v : List Double) (i : Nat) : Option Double := v.get? i

/-! ## The entry point -/

/-- The function `chiCutMesh` of cut_mesh.cc, lines 12-44.  The geometry kernel
`CutMeshWithPlane` (mesh_cutting.h, absent; a `void` function that mutates the
mesh it is given) is the parameter `kernel`. -/
def chiCutMesh {M : Type} (kernel : M → Vector3 → Vector3 → Double → Double → M)
    (w : World M) (L : lua_State) : Exec M :=
  let fname := "chiCutMesh"
  let num_args := lua_gettop L
  -- line 17
  if num_args < 2 then ⟨w, [], Completion.raised (LuaPostArgAmountError fname 2 num_args)⟩ else
  -- lines 19-22
  match LuaCheckNilValue fname L 1 with
  | Except.error e => ⟨w, [], Completion.raised e⟩
  | Except.ok _ =>
  match LuaCheckNilValue fname L 2 with
  | Except.error e => ⟨w, [], Completion.raised e⟩
  | Except.ok _ =>
  match (if num_args ≥ 3 then LuaCheckNilValue fname L 3 else Except.ok ()) with
  | Except.error e => ⟨w, [], Completion.raised e⟩
  | Except.ok _ =>
  match (if num_args = 4 then LuaCheckNilValue fname L 4 else Except.ok ()) with
  | Except.error e => ⟨w, [], Completion.raised e⟩
  | Except.ok _ =>
  -- lines 29-30 (p_raw and n_raw start empty, lines 24-25)
  match LuaPopulateVectorFrom1DArray fname L 1 with
  | Except.error e => ⟨w, [], Completion.raised e⟩
  | Except.ok p_raw =>
  match LuaPopulateVectorFrom1DArray fname L 2 with
  | Except.error e => ⟨w, [], Completion.raised e⟩
  | Except.ok n_raw =>
  -- lines 26-27 and 31-32
  let merge_tolerance := if num_args ≥ 3 then lua_tonumber L 3 else default_merge_tolerance
  let float_compare := if num_args = 4 then lua_tonumber L 4 else default_float_compare
  -- line 34
  let handler := GetCurrentHandler w
  -- line 36
  match handler.GetGrid with
  | Except.error e => ⟨w, [Event.GetCurrentHandler, Event.GetGrid], Completion.raised e⟩
  | Except.ok grid =>
  -- lines 38-39
  match vectorAt p_raw 0, vectorAt p_raw 1, vectorAt p_raw 2,
        vectorAt n_raw 0, vectorAt n_raw 1, vectorAt n_raw 2 with
  | some p0, some p1, some p2, some n0, some n1, some n2 =>
    let p : Vector3 := ⟨p0, p1, p2⟩
    let n : Vector3 := ⟨n0, n1, n2⟩
    -- line 41
    let call : CutCall M := ⟨grid, p, n, merge_tolerance, float_compare⟩
    let grid_after := kernel grid p n merge_tolerance float_compare
    -- line 43
    ⟨{ current_handler := { grid := some grid_after } },
     [Event.GetCurrentHandler, Event.GetGrid, Event.CutMeshWithPlane call],
     Completion.returned 0⟩
  | _, _, _, _, _, _ =>
    ⟨w, [Event.GetCurrentHandler, Event.GetGrid], Completion.undefinedBehaviour⟩

/-- The five actual arguments line 41 builds from the grid, the first three
components of each array and the stack (lines 26-27, 31-32, 38-39). -/
def forwarded {M : Type} (grid : M) (p0 p1 p2 n0 n1 n2 : Double) (L : lua_State) : CutCall M :=
  ⟨grid, ⟨p0, p1, p2⟩, ⟨n0, n1, n2⟩,
   if lua_gettop L ≥ 3 then lua_tonumber L 3 else default_merge_tolerance,
   if lua_gettop L = 4 then lua_tonumber L 4 else default_float_compare⟩

/-- The argument checks of lines 17-30 all pass on this stack. -/
def argumentsAccepted (L : lua_State) : Prop :=
  2 ≤ lua_gettop L ∧ lua_isnil L 1 = false ∧ lua_isnil L 2 = false ∧
  (3 ≤ lua_gettop L → lua_isnil L 3 = false) ∧
  (lua_gettop L = 4 → lua_isnil L 4 = false) ∧
  (∃ p_raw, LuaPopulateVectorFrom1DArray "chiCutMesh" L 1 = Except.ok p_raw) ∧
  (∃ n_raw, LuaPopulateVectorFrom1DArray "chiCutMesh" L 2 = Except.ok n_raw)

/-! ## Classification by the geometry kernel -/

/-- A cutting plane: reference point and normal. -/
structure Plane where
  point : Vector3
  normal : Vector3
  deriving DecidableEq, Repr

/-- Component-wise difference of two vectors. -/
def Vector3.sub (a b : Vector3) : Vector3 := ⟨a.x - b.x, a.y - b.y, a.z - b.z⟩

/-- Dot product of two vectors. -/
def Vector3.Dot (a b : Vector3) : Double := a.x * b.x + a.y * b.y + a.z * b.z

/-- The three sides of a plane. -/
inductive Side
  | ABOVE
  | BELOW
  | ON
  deriving DecidableEq, Repr

/-- Modelled from the spec: `SignedDistance(point, plane)` of the geometry
kernel (mesh_cutting.cc, absent), `d(p) = (p - point) . normal`. -/
def SignedDistance (p : Vector3) (plane : Plane) : Double :=
  (p.sub plane.point).Dot plane.normal

/-- Modelled from the spec: `Classify(point, plane, cmpTol)` of the geometry
kernel (mesh_cutting.cc, absent): `d > cmpTol` is above, `d < -cmpTol` is below,
otherwise on-plane. -/
def Classify (p : Vector3) (plane : Plane) (cmpTol : Double) : Side :=
  let d := SignedDistance p plane
  if d > cmpTol then Side.ABOVE
  else if d < -cmpTol then Side.BELOW
  else Side.ON

/-! ## Concrete data for evaluating the entry point -/

/-- A mesh stand-in for evaluation: the number of cuts applied so far. -/
abbrev CutCount := Nat

/-- A kernel stand-in for evaluation: it counts the cut. -/
def countingKernel : CutCount → Vector3 → Vector3 → Double → Double → CutCount :=
  fun m _ _ _ _ => m + 1

/-- A registry whose current handler holds a mesh. -/
def loadedWorld : World CutCount := ⟨⟨some 0⟩⟩

/-- A registry whose current handler holds no mesh. -/
def emptyWorld : World CutCount := ⟨⟨none⟩⟩

/-- Two arguments: a point and a normal. -/
def planeOnly : lua_State :=
  [LuaValue.table [0, 0, 0], LuaValue.table [0, 0, 1]]

/-- Three arguments: point, normal and a merge tolerance. -/
def planeAndMerge : lua_State :=
  [LuaValue.table [0, 0, 0], LuaValue.table [0, 0, 1], LuaValue.number 5]

/-- Four arguments, with arrays longer than three components. -/
def planeAndBoth : lua_State :=
  [LuaValue.table [1, 2, 3, 4], LuaValue.table [0, 0, 2, 9], LuaValue.number 5, LuaValue.number 7]

/-- Five arguments: point, normal, two tolerances and one more value. -/
def fiveArguments : lua_State :=
  [LuaValue.table [0, 0, 0], LuaValue.table [0, 0, 1], LuaValue.number 5, LuaValue.number 7,
   LuaValue.number 9]

/-- Five arguments, the fourth of them nil. -/
def fiveArgumentsNilFourth : lua_State :=
  [LuaValue.table [0, 0, 0], LuaValue.table [0, 0, 1], LuaValue.number 5, LuaValue.nil,
   LuaValue.number 9]

/-- A point array with a single component. -/
def shortPoint : lua_State :=
  [LuaValue.table [1], LuaValue.table [0, 0, 1]]

/-- A nil point. -/
def nilPoint : lua_State :=
  [LuaValue.nil, LuaValue.table [0, 0, 1]]

/-! ## Lemmas on the helpers and the shape of an execution -/

/-- The nil check raises only the nil-value error, and only on a nil. -/
theorem LuaCheckNilValue_error {fname : String} {L : lua_State} {arg : Nat} {e : LuaError}
    (h : LuaCheckNilValue fname L arg = Except.error e) :
    e = LuaError.ArgNil fname arg ∧ lua_isnil L arg = true := by
  unfold LuaCheckNilValue at h
  split at h
  · rename_i hn
    simp only [Except.error.injEq] at h
    exact ⟨h.symm, hn⟩
  · simp at h

/-- The nil check returns only when the value is not nil. -/
theorem LuaCheckNilValue_ok {fname : String} {L : lua_State} {arg : Nat} {u : Unit}
    (h : LuaCheckNilValue fname L arg = Except.ok u) : lua_isnil L arg = false := by
  unfold LuaCheckNilValue at h
  split at h
  · simp at h
  · rename_i hn
    simpa using hn

/-- The array helper raises only the array-population error. -/
theorem LuaPopulateVectorFrom1DArray_error {fname : String} {L : lua_State} {arg : Nat}
    {e : LuaError} (h : LuaPopulateVectorFrom1DArray fname L arg = Except.error e) :
    e = LuaError.ArgArray fname arg := by
  unfold LuaPopulateVectorFrom1DArray at h
  split at h
  · simp at h
  · simp only [Except.error.injEq] at h
    exact h.symm

/-- The grid accessor fails only with `NoActiveMesh`, and only without a grid. -/
theorem GetGrid_error {M : Type} {h : MeshHandler M} {e : LuaError}
    (he : h.GetGrid = Except.error e) : e = LuaError.NoActiveMesh ∧ h.grid = none := by
  unfold MeshHandler.GetGrid at he
  split at he
  · simp at he
  · rename_i hg
    simp only [Except.error.injEq] at he
    exact ⟨he.symm, hg⟩

/-- The grid accessor returns the grid the handler holds. -/
theorem GetGrid_ok {M : Type} {h : MeshHandler M} {g : M}
    (he : h.GetGrid = Except.ok g) : h.grid = some g := by
  unfold MeshHandler.GetGrid at he
  split at he
  · rename_i g0 hg
    simp only [Except.ok.injEq] at he
    rw [hg, he]
  · simp at he

/-- Three in-bounds reads at 0, 1, 2 give the first three components. -/
theorem vectorAt_three {v : List Double} {a b c : Double}
    (h0 : vectorAt v 0 = some a) (h1 : vectorAt v 1 = some b) (h2 : vectorAt v 2 = some c) :
    ∃ rest, v = a :: b :: c :: rest := by
  match v, h0, h1, h2 with
  | x :: y :: z :: rest, h0, h1, h2 =>
    simp [vectorAt] at h0 h1 h2
    exact ⟨rest, by rw [h0, h1, h2]⟩
  | [], h0, _, _ => simp [vectorAt] at h0
  | [_], _, h1, _ => simp [vectorAt] at h1
  | [_, _], _, _, h2 => simp [vectorAt] at h2

/-- A guarded nil check that returned: under the guard the value is not nil. -/
theorem LuaCheckNilValue_guard_ok {fname : String} {L : lua_State} {arg : Nat} {u : Unit}
    {c : Prop} [Decidable c]
    (h : (if c then LuaCheckNilValue fname L arg else Except.ok ()) = Except.ok u) :
    c → lua_isnil L arg = false := by
  intro hc
  rw [if_pos hc] at h
  exact LuaCheckNilValue_ok h

/-- Every execution of the entry point has one of six shapes: one per argument
helper that can raise, the missing mesh, the unchecked index read, and the cut. -/
theorem chiCutMesh_cases {M : Type}
    (kernel : M → Vector3 → Vector3 → Double → Double → M)
    (w : World M) (L : lua_State) :
    (lua_gettop L < 2 ∧ chiCutMesh kernel w L =
        ⟨w, [], Completion.raised (LuaError.ArgAmount "chiCutMesh" 2 (lua_gettop L))⟩)
    ∨ (2 ≤ lua_gettop L ∧ ∃ arg, lua_isnil L arg = true ∧ chiCutMesh kernel w L =
        ⟨w, [], Completion.raised (LuaError.ArgNil "chiCutMesh" arg)⟩)
    ∨ (2 ≤ lua_gettop L ∧ ∃ arg, chiCutMesh kernel w L =
        ⟨w, [], Completion.raised (LuaError.ArgArray "chiCutMesh" arg)⟩)
    ∨ (argumentsAccepted L ∧ w.current_handler.grid = none ∧
        chiCutMesh kernel w L =
          ⟨w, [Event.GetCurrentHandler, Event.GetGrid], Completion.raised LuaError.NoActiveMesh⟩)
    ∨ (∃ p_raw n_raw, argumentsAccepted L ∧ w.current_handler.grid ≠ none ∧
        LuaPopulateVectorFrom1DArray "chiCutMesh" L 1 = Except.ok p_raw ∧
        LuaPopulateVectorFrom1DArray "chiCutMesh" L 2 = Except.ok n_raw ∧
        (p_raw.length < 3 ∨ n_raw.length < 3) ∧
        chiCutMesh kernel w L =
          ⟨w, [Event.GetCurrentHandler, Event.GetGrid], Completion.undefinedBehaviour⟩)
    ∨ (∃ grid p0 p1 p2 prest n0 n1 n2 nrest, argumentsAccepted L ∧
        w.current_handler.grid = some grid ∧
        LuaPopulateVectorFrom1DArray "chiCutMesh" L 1 = Except.ok (p0 :: p1 :: p2 :: prest) ∧
        LuaPopulateVectorFrom1DArray "chiCutMesh" L 2 = Except.ok (n0 :: n1 :: n2 :: nrest) ∧
        chiCutMesh kernel w L =
          ⟨⟨⟨some (kernel grid ⟨p0, p1, p2⟩ ⟨n0, n1, n2⟩
              (forwarded grid p0 p1 p2 n0 n1 n2 L).merge_tolerance
              (forwarded grid p0 p1 p2 n0 n1 n2 L).float_compare)⟩⟩,
           [Event.GetCurrentHandler, Event.GetGrid,
            Event.CutMeshWithPlane (forwarded grid p0 p1 p2 n0 n1 n2 L)],
           Completion.returned 0⟩) := by
  unfold chiCutMesh
  dsimp only
  split
  · rename_i hlt
    left; exact ⟨hlt, rfl⟩
  rename_i hlen
  have hlen2 : 2 ≤ lua_gettop L := Nat.le_of_not_lt hlen
  split
  · rename_i e he
    obtain ⟨h1, h2⟩ := LuaCheckNilValue_error he
    subst h1
    right; left; exact ⟨hlen2, 1, h2, rfl⟩
  rename_i u1 hnil1
  split
  · rename_i e he
    obtain ⟨h1, h2⟩ := LuaCheckNilValue_error he
    subst h1
    right; left; exact ⟨hlen2, 2, h2, rfl⟩
  rename_i u2 hnil2
  split
  · rename_i e he
    split at he
    · obtain ⟨h1, h2⟩ := LuaCheckNilValue_error he
      subst h1
      right; left; exact ⟨hlen2, 3, h2, rfl⟩
    · simp at he
  rename_i u3 hnil3
  split
  · rename_i e he
    split at he
    · obtain ⟨h1, h2⟩ := LuaCheckNilValue_error he
      subst h1
      right; left; exact ⟨hlen2, 4, h2, rfl⟩
    · simp at he
  rename_i u4 hnil4
  split
  · rename_i e he
    have h1 := LuaPopulateVectorFrom1DArray_error he
    subst h1
    right; right; left; exact ⟨hlen2, 1, rfl⟩
  rename_i p_raw hp
  split
  · rename_i e he
    have h1 := LuaPopulateVectorFrom1DArray_error he
    subst h1
    right; right; left; exact ⟨hlen2, 2, rfl⟩
  rename_i n_raw hn
  have hacc : argumentsAccepted L :=
    ⟨hlen2, LuaCheckNilValue_ok hnil1, LuaCheckNilValue_ok hnil2,
     LuaCheckNilValue_guard_ok hnil3, LuaCheckNilValue_guard_ok hnil4, ⟨p_raw, hp⟩, ⟨n_raw, hn⟩⟩
  split
  · rename_i e he
    obtain ⟨h1, h2⟩ := GetGrid_error he
    subst h1
    right; right; right; left
    exact ⟨hacc, h2, rfl⟩
  rename_i grid hg
  have hgrid : w.current_handler.grid = some grid := GetGrid_ok hg
  split
  · rename_i p0 p1 p2 n0 n1 n2 hp0 hp1 hp2 hn0 hn1 hn2
    right; right; right; right; right
    obtain ⟨prest, hpe⟩ := vectorAt_three hp0 hp1 hp2
    obtain ⟨nrest, hne⟩ := vectorAt_three hn0 hn1 hn2
    subst hpe; subst hne
    exact ⟨grid, p0, p1, p2, prest, n0, n1, n2, nrest, hacc, hgrid, hp, hn, rfl⟩
  · rename_i hno
    right; right; right; right; left
    refine ⟨p_raw, n_raw, hacc, by rw [hgrid]; simp, hp, hn, ?_, rfl⟩
    by_contra hcon
    push_neg at hcon
    obtain ⟨h3p, h3n⟩ := hcon
    match p_raw, n_raw, h3p, h3n, hno with
    | a :: b :: c :: _, x :: y :: z :: _, _, _, hno =>
      exact hno a b c x y z rfl rfl rfl rfl rfl rfl

/-- On a stack that passes the argument checks the entry point goes on to fetch
the handler and its grid: what is left of the body is lines 34-43. -/
theorem chiCutMesh_of_accepted {M : Type}
    (kernel : M → Vector3 → Vector3 → Double → Double → M)
    (w : World M) (L : lua_State) (p_raw n_raw : List Double)
    (hacc : argumentsAccepted L)
    (hp : LuaPopulateVectorFrom1DArray "chiCutMesh" L 1 = Except.ok p_raw)
    (hn : LuaPopulateVectorFrom1DArray "chiCutMesh" L 2 = Except.ok n_raw) :
    chiCutMesh kernel w L =
      match (GetCurrentHandler w).GetGrid with
      | Except.error e => ⟨w, [Event.GetCurrentHandler, Event.GetGrid], Completion.raised e⟩
      | Except.ok grid =>
        match vectorAt p_raw 0, vectorAt p_raw 1, vectorAt p_raw 2,
              vectorAt n_raw 0, vectorAt n_raw 1, vectorAt n_raw 2 with
        | some p0, some p1, some p2, some n0, some n1, some n2 =>
          ⟨⟨⟨some (kernel grid ⟨p0, p1, p2⟩ ⟨n0, n1, n2⟩
              (forwarded grid p0 p1 p2 n0 n1 n2 L).merge_tolerance
              (forwarded grid p0 p1 p2 n0 n1 n2 L).float_compare)⟩⟩,
           [Event.GetCurrentHandler, Event.GetGrid,
            Event.CutMeshWithPlane (forwarded grid p0 p1 p2 n0 n1 n2 L)],
           Completion.returned 0⟩
        | _, _, _, _, _, _ =>
          ⟨w, [Event.GetCurrentHandler, Event.GetGrid], Completion.undefinedBehaviour⟩ := by
  obtain ⟨hlen, h1, h2, h3, h4, _, _⟩ := hacc
  have hlt : ¬ lua_gettop L < 2 := Nat.not_lt.mpr hlen
  have c3 : (if lua_gettop L ≥ 3 then LuaCheckNilValue "chiCutMesh" L 3 else Except.ok ())
      = Except.ok () := by
    by_cases hc : lua_gettop L ≥ 3
    · simp [hc, LuaCheckNilValue, h3 hc]
    · simp [hc]
  have c4 : (if lua_gettop L = 4 then LuaCheckNilValue "chiCutMesh" L 4 else Except.ok ())
      = Except.ok () := by
    by_cases hc : lua_gettop L = 4
    · simp [hc, LuaCheckNilValue, h4 hc]
    · simp [hc]
  have c1 : LuaCheckNilValue "chiCutMesh" L 1 = Except.ok () := by simp [LuaCheckNilValue, h1]
  have c2 : LuaCheckNilValue "chiCutMesh" L 2 = Except.ok () := by simp [LuaCheckNilValue, h2]
  unfold chiCutMesh
  simp only [hlt, if_false, c1, c2, c3, c4, hp, hn, forwarded]

/-! ## Properties of the entry point -/

/-- An invocation found in the trace of an execution is the one line 41 builds,
and it is the only one. -/
theorem cutCalls_mem {M : Type}
    (kernel : M → Vector3 → Vector3 → Double → Double → M)
    (w : World M) (L : lua_State) (c : CutCall M)
    (h : c ∈ cutCalls (chiCutMesh kernel w L).trace) :
    ∃ grid p0 p1 p2 prest n0 n1 n2 nrest,
      w.current_handler.grid = some grid ∧
      LuaPopulateVectorFrom1DArray "chiCutMesh" L 1 = Except.ok (p0 :: p1 :: p2 :: prest) ∧
      LuaPopulateVectorFrom1DArray "chiCutMesh" L 2 = Except.ok (n0 :: n1 :: n2 :: nrest) ∧
      c = forwarded grid p0 p1 p2 n0 n1 n2 L := by
  rcases chiCutMesh_cases kernel w L with
    ⟨_, he⟩ | ⟨_, _, _, he⟩ | ⟨_, _, he⟩ | ⟨_, _, he⟩ | ⟨_, _, _, _, _, _, _, he⟩ |
    ⟨grid, p0, p1, p2, prest, n0, n1, n2, nrest, _, hg, hp, hn, he⟩
  all_goals rw [he] at h
  all_goals simp only [cutCalls, List.not_mem_nil, List.mem_singleton] at h
  exact ⟨grid, p0, p1, p2, prest, n0, n1, n2, nrest, hg, hp, hn, h⟩

/-- C1: whenever `chiCutMesh` reaches the cut, the merge tolerance handed to
`CutMeshWithPlane` is the default `1.0e-3` for a call with exactly two
arguments and the numeric value of the third argument for a call with three or
more. -/
theorem chiCutMesh_merge_tolerance {M : Type}
    (kernel : M → Vector3 → Vector3 → Double → Double → M)
    (w : World M) (L : lua_State) (c : CutCall M)
    (h : c ∈ cutCalls (chiCutMesh kernel w L).trace) :
    (lua_gettop L = 2 → c.merge_tolerance = default_merge_tolerance) ∧
    (3 ≤ lua_gettop L → c.merge_tolerance = lua_tonumber L 3) := by
  obtain ⟨grid, p0, p1, p2, prest, n0, n1, n2, nrest, _, _, _, hc⟩ := cutCalls_mem kernel w L c h
  subst hc
  constructor
  · intro h2
    have : ¬ lua_gettop L ≥ 3 := by omega
    simp only [forwarded, this, if_false]
  · intro h3
    have : lua_gettop L ≥ 3 := h3
    simp only [forwarded, this, if_true]

/-- Witness of C1: a two-argument call cuts with the default merge tolerance, a
three-argument call with its third argument. -/
theorem chiCutMesh_merge_tolerance_witness :
    ((⟨0, ⟨0, 0, 0⟩, ⟨0, 0, 1⟩, default_merge_tolerance, default_float_compare⟩ : CutCall CutCount)
        ∈ cutCalls (chiCutMesh countingKernel loadedWorld planeOnly).trace ∧
      (⟨0, ⟨0, 0, 0⟩, ⟨0, 0, 1⟩, default_merge_tolerance, default_float_compare⟩ :
        CutCall CutCount).merge_tolerance = default_merge_tolerance) ∧
    ((⟨0, ⟨0, 0, 0⟩, ⟨0, 0, 1⟩, 5, default_float_compare⟩ : CutCall CutCount)
        ∈ cutCalls (chiCutMesh countingKernel loadedWorld planeAndMerge).trace ∧
      (⟨0, ⟨0, 0, 0⟩, ⟨0, 0, 1⟩, 5, default_float_compare⟩ :
        CutCall CutCount).merge_tolerance = lua_tonumber planeAndMerge 3) :=
  ⟨⟨List.mem_singleton.mpr rfl,
    (chiCutMesh_merge_tolerance countingKernel loadedWorld planeOnly _
      (List.mem_singleton.mpr rfl)).1 (by decide)⟩,
   ⟨List.mem_singleton.mpr rfl,
    (chiCutMesh_merge_tolerance countingKernel loadedWorld planeAndMerge _
      (List.mem_singleton.mpr rfl)).2 (by decide)⟩⟩

/-- What the code does with the float-compare tolerance: whenever the cut is
reached, the tolerance handed on is the fourth argument for a call with exactly
four arguments, and the default `1.0e-10` for every other argument count. -/
theorem chiCutMesh_float_compare_exactly_four {M : Type}
    (kernel : M → Vector3 → Vector3 → Double → Double → M)
    (w : World M) (L : lua_State) (c : CutCall M)
    (h : c ∈ cutCalls (chiCutMesh kernel w L).trace) :
    (lua_gettop L = 4 → c.float_compare = lua_tonumber L 4) ∧
    (lua_gettop L ≠ 4 → c.float_compare = default_float_compare) := by
  obtain ⟨grid, p0, p1, p2, prest, n0, n1, n2, nrest, _, _, _, hc⟩ := cutCalls_mem kernel w L c h
  subst hc
  constructor
  · intro h4
    simp only [forwarded, h4, if_true]
  · intro h4
    simp only [forwarded, h4, if_false]

/-- C2: a call with five arguments supplies a fourth argument (here `7`), yet
the cut is invoked with the default float-compare tolerance `1.0e-10`, not with
the fourth argument. -/
theorem chiCutMesh_five_arguments_float_compare :
    4 ≤ lua_gettop fiveArguments ∧
    lua_tonumber fiveArguments 4 = 7 ∧
    cutCalls (chiCutMesh countingKernel loadedWorld fiveArguments).trace =
      [⟨0, ⟨0, 0, 0⟩, ⟨0, 0, 1⟩, 5, default_float_compare⟩] ∧
    default_float_compare ≠ 7 :=
  ⟨by decide, rfl, rfl, by norm_num [default_float_compare]⟩

/-- C3: a call whose point array has a single component, made with a mesh
loaded, raises no error: the handler and its grid are fetched and the body
reaches the unchecked reads `p_raw[1]`, `p_raw[2]` beyond the end of the
vector. -/
theorem chiCutMesh_short_point_unchecked :
    LuaPopulateVectorFrom1DArray "chiCutMesh" shortPoint 1 = Except.ok [1] ∧
    chiCutMesh countingKernel loadedWorld shortPoint =
      ⟨loadedWorld, [Event.GetCurrentHandler, Event.GetGrid], Completion.undefinedBehaviour⟩ ∧
    ∀ e, (chiCutMesh countingKernel loadedWorld shortPoint).completion ≠ Completion.raised e :=
  ⟨rfl, rfl, fun e h => by
    rw [show (chiCutMesh countingKernel loadedWorld shortPoint).completion
          = Completion.undefinedBehaviour from rfl] at h
    exact Completion.noConfusion h⟩

/-- C4: a call with fewer than two arguments raises the argument-amount error,
reporting 2 expected and the actual count, without fetching the mesh handler or
invoking `CutMeshWithPlane`; a call with two or more arguments never raises the
argument-amount error. -/
theorem chiCutMesh_arg_amount {M : Type}
    (kernel : M → Vector3 → Vector3 → Double → Double → M)
    (w : World M) (L : lua_State) :
    (lua_gettop L < 2 →
      (chiCutMesh kernel w L).completion =
          Completion.raised (LuaError.ArgAmount "chiCutMesh" 2 (lua_gettop L)) ∧
      fetchesHandler (chiCutMesh kernel w L).trace = false ∧
      cutCalls (chiCutMesh kernel w L).trace = [] ∧
      (chiCutMesh kernel w L).world = w) ∧
    (2 ≤ lua_gettop L →
      ∀ fname expected given,
        (chiCutMesh kernel w L).completion ≠
          Completion.raised (LuaError.ArgAmount fname expected given)) := by
  constructor
  · intro hlt
    have he : chiCutMesh kernel w L =
        ⟨w, [], Completion.raised (LuaError.ArgAmount "chiCutMesh" 2 (lua_gettop L))⟩ := by
      unfold chiCutMesh
      simp only [hlt, if_true, LuaPostArgAmountError]
    rw [he]
    exact ⟨rfl, rfl, rfl, rfl⟩
  · intro hge fname expected given hc
    rcases chiCutMesh_cases kernel w L with
      ⟨hlt, _⟩ | ⟨_, _, _, he⟩ | ⟨_, _, he⟩ | ⟨_, _, he⟩ | ⟨_, _, _, _, _, _, _, he⟩ |
      ⟨_, _, _, _, _, _, _, _, _, _, _, _, _, he⟩
    · omega
    all_goals rw [he] at hc
    all_goals simp at hc

/-- Witness of C4: the empty call raises the amount error with counts 2 and 0;
a two-argument call does not raise it. -/
theorem chiCutMesh_arg_amount_witness :
    (lua_gettop ([] : lua_State) < 2 ∧
      (chiCutMesh countingKernel loadedWorld []).completion =
        Completion.raised (LuaError.ArgAmount "chiCutMesh" 2 0) ∧
      fetchesHandler (chiCutMesh countingKernel loadedWorld []).trace = false ∧
      cutCalls (chiCutMesh countingKernel loadedWorld []).trace = [] ∧
      (chiCutMesh countingKernel loadedWorld []).world = loadedWorld) ∧
    (2 ≤ lua_gettop planeOnly ∧
      (chiCutMesh countingKernel loadedWorld planeOnly).completion ≠
        Completion.raised (LuaError.ArgAmount "chiCutMesh" 2 2)) :=
  ⟨⟨by decide, (chiCutMesh_arg_amount countingKernel loadedWorld []).1 (by decide)⟩,
   ⟨by decide,
    (chiCutMesh_arg_amount countingKernel loadedWorld planeOnly).2 (by decide) "chiCutMesh" 2 2⟩⟩

/-- C5: whenever the cut is reached and the point and normal arrays hold at
least three components, the plane point handed to `CutMeshWithPlane` is the
first three components of the point array and the plane normal is the first
three components of the normal array, in order and unaltered; further
components are ignored. -/
theorem chiCutMesh_plane_forwarded {M : Type}
    (kernel : M → Vector3 → Vector3 → Double → Double → M)
    (w : World M) (L : lua_State) (c : CutCall M)
    (p0 p1 p2 : Double) (prest : List Double) (n0 n1 n2 : Double) (nrest : List Double)
    (h : c ∈ cutCalls (chiCutMesh kernel w L).trace)
    (hp : LuaPopulateVectorFrom1DArray "chiCutMesh" L 1 = Except.ok (p0 :: p1 :: p2 :: prest))
    (hn : LuaPopulateVectorFrom1DArray "chiCutMesh" L 2 = Except.ok (n0 :: n1 :: n2 :: nrest)) :
    c.plane_point = ⟨p0, p1, p2⟩ ∧ c.plane_normal = ⟨n0, n1, n2⟩ := by
  obtain ⟨grid, q0, q1, q2, qrest, m0, m1, m2, mrest, _, hq, hm, hc⟩ := cutCalls_mem kernel w L c h
  rw [hp] at hq
  rw [hn] at hm
  simp only [Except.ok.injEq, List.cons.injEq] at hq hm
  obtain ⟨e0, e1, e2, _⟩ := hq
  obtain ⟨f0, f1, f2, _⟩ := hm
  subst hc
  simp only [forwarded, e0, e1, e2, f0, f1, f2, and_self]

/-- Witness of C5: arrays of four components, a normal of length 2. -/
theorem chiCutMesh_plane_forwarded_witness :
    (⟨0, ⟨1, 2, 3⟩, ⟨0, 0, 2⟩, 5, 7⟩ : CutCall CutCount)
        ∈ cutCalls (chiCutMesh countingKernel loadedWorld planeAndBoth).trace ∧
    LuaPopulateVectorFrom1DArray "chiCutMesh" planeAndBoth 1 = Except.ok [1, 2, 3, 4] ∧
    LuaPopulateVectorFrom1DArray "chiCutMesh" planeAndBoth 2 = Except.ok [0, 0, 2, 9] ∧
    (⟨0, ⟨1, 2, 3⟩, ⟨0, 0, 2⟩, 5, 7⟩ : CutCall CutCount).plane_point = ⟨1, 2, 3⟩ ∧
    (⟨0, ⟨1, 2, 3⟩, ⟨0, 0, 2⟩, 5, 7⟩ : CutCall CutCount).plane_normal = ⟨0, 0, 2⟩ :=
  ⟨List.mem_singleton.mpr rfl, rfl, rfl,
   chiCutMesh_plane_forwarded countingKernel loadedWorld planeAndBoth _ 1 2 3 [4] 0 0 2 [9]
     (List.mem_singleton.mpr rfl) rfl rfl⟩

/-- C6, as stated, fails: the empty call made with no mesh loaded raises the
argument-amount error, not `NoActiveMesh`. -/
theorem chiCutMesh_no_mesh_counterexample :
    emptyWorld.current_handler.grid = none ∧
    ¬ ((chiCutMesh countingKernel emptyWorld []).completion =
          Completion.raised LuaError.NoActiveMesh ∧
        cutCalls (chiCutMesh countingKernel emptyWorld []).trace = []) :=
  ⟨rfl, fun h => by
    have h1 := h.1
    rw [show (chiCutMesh countingKernel emptyWorld []).completion
          = Completion.raised (LuaError.ArgAmount "chiCutMesh" 2 0) from rfl] at h1
    simp at h1⟩

/-- C6, amended: a call made when no mesh is loaded never invokes
`CutMeshWithPlane`, leaves the registry as it was and fails; it fails with
`NoActiveMesh` when the argument checks pass, and with the argument error that
is raised first when they do not. -/
theorem chiCutMesh_no_mesh {M : Type}
    (kernel : M → Vector3 → Vector3 → Double → Double → M)
    (w : World M) (L : lua_State) (hw : w.current_handler.grid = none) :
    cutCalls (chiCutMesh kernel w L).trace = [] ∧
    (chiCutMesh kernel w L).world = w ∧
    (argumentsAccepted L →
      (chiCutMesh kernel w L).completion = Completion.raised LuaError.NoActiveMesh) ∧
    (¬ argumentsAccepted L →
      ∃ e, e.isInvalidArgument = true ∧
        (chiCutMesh kernel w L).completion = Completion.raised e) := by
  rcases chiCutMesh_cases kernel w L with
    ⟨hlt, he⟩ | ⟨_, arg, hnil, he⟩ | ⟨_, arg, he⟩ | ⟨hacc, _, he⟩ |
    ⟨_, _, _, hg, _⟩ | ⟨grid, _, _, _, _, _, _, _, _, _, hg, _⟩
  · rw [he]
    exact ⟨rfl, rfl, fun hacc => absurd hacc.1 (Nat.not_le.mpr hlt),
      fun _ => ⟨LuaError.ArgAmount "chiCutMesh" 2 (lua_gettop L), rfl, rfl⟩⟩
  · have hnot : ¬ argumentsAccepted L := by
      intro hacc
      obtain ⟨p_raw, hp⟩ := hacc.2.2.2.2.2.1
      obtain ⟨n_raw, hn⟩ := hacc.2.2.2.2.2.2
      have hh := chiCutMesh_of_accepted kernel w L p_raw n_raw hacc hp hn
      rw [he] at hh
      simp only [GetCurrentHandler, MeshHandler.GetGrid, hw] at hh
      simp at hh
    rw [he]
    exact ⟨rfl, rfl, fun hacc => absurd hacc hnot,
      fun _ => ⟨LuaError.ArgNil "chiCutMesh" arg, rfl, rfl⟩⟩
  · have hnot : ¬ argumentsAccepted L := by
      intro hacc
      obtain ⟨p_raw, hp⟩ := hacc.2.2.2.2.2.1
      obtain ⟨n_raw, hn⟩ := hacc.2.2.2.2.2.2
      have hh := chiCutMesh_of_accepted kernel w L p_raw n_raw hacc hp hn
      rw [he] at hh
      simp only [GetCurrentHandler, MeshHandler.GetGrid, hw] at hh
      simp at hh
    rw [he]
    exact ⟨rfl, rfl, fun hacc => absurd hacc hnot,
      fun _ => ⟨LuaError.ArgArray "chiCutMesh" arg, rfl, rfl⟩⟩
  · rw [he]
    exact ⟨rfl, rfl, fun _ => rfl, fun hnot => absurd hacc hnot⟩
  · exact absurd hw hg
  · rw [hw] at hg
    simp at hg

/-- Witness of C6 (amended): a well-formed two-argument call with no mesh
loaded. -/
theorem chiCutMesh_no_mesh_witness :
    emptyWorld.current_handler.grid = none ∧ argumentsAccepted planeOnly ∧
    cutCalls (chiCutMesh countingKernel emptyWorld planeOnly).trace = [] ∧
    (chiCutMesh countingKernel emptyWorld planeOnly).completion =
      Completion.raised LuaError.NoActiveMesh :=
  have hacc : argumentsAccepted planeOnly :=
    ⟨by decide, rfl, rfl, fun h => absurd h (by decide), fun h => absurd h (by decide),
     ⟨_, rfl⟩, ⟨_, rfl⟩⟩
  ⟨rfl, hacc, (chiCutMesh_no_mesh countingKernel emptyWorld planeOnly rfl).1,
   (chiCutMesh_no_mesh countingKernel emptyWorld planeOnly rfl).2.2.1 hacc⟩

/-- What the code does with nil tolerances: a nil in position 3 of a call with
three or more arguments, or in position 4 of a call with exactly four, raises
the nil-value error before the mesh is touched (given a non-nil point and
normal). -/
theorem chiCutMesh_nil_checked {M : Type}
    (kernel : M → Vector3 → Vector3 → Double → Double → M)
    (w : World M) (L : lua_State)
    (h : lua_isnil L 1 = true ∨ lua_isnil L 2 = true ∨
         (3 ≤ lua_gettop L ∧ lua_isnil L 3 = true) ∨
         (lua_gettop L = 4 ∧ lua_isnil L 4 = true)) :
    ∃ e, e.isInvalidArgument = true ∧ chiCutMesh kernel w L = ⟨w, [], Completion.raised e⟩ := by
  have hnot : ¬ argumentsAccepted L := by
    intro hacc
    obtain ⟨_, h1, h2, h3, h4, _, _⟩ := hacc
    rcases h with h | h | ⟨hc, h⟩ | ⟨hc, h⟩
    · rw [h1] at h; exact Bool.noConfusion h
    · rw [h2] at h; exact Bool.noConfusion h
    · rw [h3 hc] at h; exact Bool.noConfusion h
    · rw [h4 hc] at h; exact Bool.noConfusion h
  rcases chiCutMesh_cases kernel w L with
    ⟨_, he⟩ | ⟨_, arg, _, he⟩ | ⟨_, arg, he⟩ | ⟨hacc, _⟩ |
    ⟨_, _, hacc, _⟩ | ⟨_, _, _, _, _, _, _, _, _, hacc, _⟩
  · exact ⟨LuaError.ArgAmount "chiCutMesh" 2 (lua_gettop L), rfl, he⟩
  · exact ⟨LuaError.ArgNil "chiCutMesh" arg, rfl, he⟩
  · exact ⟨LuaError.ArgArray "chiCutMesh" arg, rfl, he⟩
  · exact absurd hacc hnot
  · exact absurd hacc hnot
  · exact absurd hacc hnot

/-- C7: a call with five arguments whose fourth argument is nil raises no
error: the nil goes unchecked, `CutMeshWithPlane` is invoked and the call
returns 0. -/
theorem chiCutMesh_nil_fourth_of_five_unchecked :
    lua_isnil fiveArgumentsNilFourth 4 = true ∧
    chiCutMesh countingKernel loadedWorld fiveArgumentsNilFourth =
      ⟨⟨⟨some 1⟩⟩,
       [Event.GetCurrentHandler, Event.GetGrid,
        Event.CutMeshWithPlane ⟨0, ⟨0, 0, 0⟩, ⟨0, 0, 1⟩, 5, default_float_compare⟩],
       Completion.returned 0⟩ :=
  ⟨rfl, rfl⟩

/-- C8: when an argument check fails (the argument-amount, nil-value or
array-population error is raised), nothing has touched the mesh: the handler
was not fetched, `CutMeshWithPlane` was not invoked, and the registry and its
mesh after the call are those before it. -/
theorem chiCutMesh_argument_error_atomic {M : Type}
    (kernel : M → Vector3 → Vector3 → Double → Double → M)
    (w : World M) (L : lua_State) (e : LuaError)
    (h : (chiCutMesh kernel w L).completion = Completion.raised e)
    (he : e.isInvalidArgument = true) :
    (chiCutMesh kernel w L).trace = [] ∧
    fetchesHandler (chiCutMesh kernel w L).trace = false ∧
    cutCalls (chiCutMesh kernel w L).trace = [] ∧
    (chiCutMesh kernel w L).world = w := by
  rcases chiCutMesh_cases kernel w L with
    ⟨_, hx⟩ | ⟨_, _, _, hx⟩ | ⟨_, _, hx⟩ | ⟨_, _, hx⟩ | ⟨_, _, _, _, _, _, _, hx⟩ |
    ⟨_, _, _, _, _, _, _, _, _, _, _, _, _, hx⟩
  · rw [hx]; exact ⟨rfl, rfl, rfl, rfl⟩
  · rw [hx]; exact ⟨rfl, rfl, rfl, rfl⟩
  · rw [hx]; exact ⟨rfl, rfl, rfl, rfl⟩
  · rw [hx] at h
    simp only [Completion.raised.injEq] at h
    subst h
    exact absurd he (by decide)
  · rw [hx] at h
    simp at h
  · rw [hx] at h
    simp at h

/-- Witness of C8: a nil point with a mesh loaded. -/
theorem chiCutMesh_argument_error_atomic_witness :
    (chiCutMesh countingKernel loadedWorld nilPoint).completion =
      Completion.raised (LuaError.ArgNil "chiCutMesh" 1) ∧
    (LuaError.ArgNil "chiCutMesh" 1).isInvalidArgument = true ∧
    (chiCutMesh countingKernel loadedWorld nilPoint).trace = [] ∧
    fetchesHandler (chiCutMesh countingKernel loadedWorld nilPoint).trace = false ∧
    cutCalls (chiCutMesh countingKernel loadedWorld nilPoint).trace = [] ∧
    (chiCutMesh countingKernel loadedWorld nilPoint).world = loadedWorld :=
  ⟨rfl, rfl,
   chiCutMesh_argument_error_atomic countingKernel loadedWorld nilPoint
     (LuaError.ArgNil "chiCutMesh" 1) rfl rfl⟩

/-- C9: for a comparison tolerance `cmpTol >= 0` and the signed distance
`d = (p - point) . normal`, the classification is ABOVE exactly when
`d > cmpTol`, BELOW exactly when `d < -cmpTol`, and ON otherwise; for every
`eps` with `0 < eps <= cmpTol`, a point at signed distance `cmpTol + eps` is
ABOVE and a point at signed distance `cmpTol - eps` is ON.  This holds for
every tolerance, hence for the one `chiCutMesh` forwards. -/
theorem Classify_by_tolerance (p : Vector3) (plane : Plane) (cmpTol : Double)
    (htol : 0 ≤ cmpTol) :
    (Classify p plane cmpTol = Side.ABOVE ↔ SignedDistance p plane > cmpTol) ∧
    (Classify p plane cmpTol = Side.BELOW ↔ SignedDistance p plane < -cmpTol) ∧
    (Classify p plane cmpTol = Side.ON ↔
      ¬ SignedDistance p plane > cmpTol ∧ ¬ SignedDistance p plane < -cmpTol) ∧
    (∀ eps : Double, 0 < eps → eps ≤ cmpTol →
      (SignedDistance p plane = cmpTol + eps → Classify p plane cmpTol = Side.ABOVE) ∧
      (SignedDistance p plane = cmpTol - eps → Classify p plane cmpTol = Side.ON)) := by
  have key : ∀ d : Double,
      ((if d > cmpTol then Side.ABOVE else if d < -cmpTol then Side.BELOW else Side.ON)
          = Side.ABOVE ↔ d > cmpTol) ∧
      ((if d > cmpTol then Side.ABOVE else if d < -cmpTol then Side.BELOW else Side.ON)
          = Side.BELOW ↔ d < -cmpTol) ∧
      ((if d > cmpTol then Side.ABOVE else if d < -cmpTol then Side.BELOW else Side.ON)
          = Side.ON ↔ ¬ d > cmpTol ∧ ¬ d < -cmpTol) := by
    intro d
    by_cases h1 : d > cmpTol
    · have h2 : ¬ d < -cmpTol := by
        intro h; linarith
      simp [h1, h2]
    · by_cases h2 : d < -cmpTol
      · simp [h1, h2]
      · simp [h1, h2]
  obtain ⟨ka, kb, ko⟩ := key (SignedDistance p plane)
  refine ⟨ka, kb, ko, ?_⟩
  intro eps hpos hle
  constructor
  · intro hd
    apply ka.mpr
    rw [hd]; linarith
  · intro hd
    apply ko.mpr
    rw [hd]
    constructor
    · intro h; linarith
    · intro h; linarith

/-- Witness of C9: the plane through the origin with normal `(1, 0, 0)` and
tolerance 1; the point `(2, 0, 0)` at signed distance `1 + 1` is above, the
origin at signed distance `1 - 1` is on the plane. -/
theorem Classify_by_tolerance_witness :
    (0 : Double) ≤ 1 ∧
    Classify ⟨2, 0, 0⟩ ⟨⟨0, 0, 0⟩, ⟨1, 0, 0⟩⟩ 1 = Side.ABOVE ∧
    Classify ⟨0, 0, 0⟩ ⟨⟨0, 0, 0⟩, ⟨1, 0, 0⟩⟩ 1 = Side.ON :=
  ⟨by norm_num,
   ((Classify_by_tolerance ⟨2, 0, 0⟩ ⟨⟨0, 0, 0⟩, ⟨1, 0, 0⟩⟩ 1 (by norm_num)).2.2.2 1
      (by norm_num) (le_refl 1)).1 (by norm_num [SignedDistance, Vector3.sub, Vector3.Dot]),
   ((Classify_by_tolerance ⟨0, 0, 0⟩ ⟨⟨0, 0, 0⟩, ⟨1, 0, 0⟩⟩ 1 (by norm_num)).2.2.2 1
      (by norm_num) (le_refl 1)).2 (by norm_num [SignedDistance, Vector3.sub, Vector3.Dot])⟩

/-- No nil on the stack: `lua_isnil` is false at every index. -/
theorem lua_isnil_of_no_nil {L : lua_State} (hnil : ∀ v ∈ L, v ≠ LuaValue.nil) (idx : Nat) :
    lua_isnil L idx = false := by
  unfold lua_isnil
  split
  · rename_i hat
    unfold lua_State.at at hat
    split at hat
    · simp at hat
    · exact absurd rfl (hnil _ (List.get?_mem hat))
  · rfl

/-- C10: a call with 2, 3 or 4 arguments, none of them nil, whose point and
normal arrays populate at least three components, made with a mesh loaded,
takes no error branch and reads the arrays in bounds, invokes
`CutMeshWithPlane` exactly once, on the grid of the current handler, and
returns 0. -/
theorem chiCutMesh_success {M : Type}
    (kernel : M → Vector3 → Vector3 → Double → Double → M)
    (w : World M) (L : lua_State) (grid : M)
    (p0 p1 p2 : Double) (prest : List Double) (n0 n1 n2 : Double) (nrest : List Double)
    (hlen : 2 ≤ lua_gettop L ∧ lua_gettop L ≤ 4)
    (hnil : ∀ v ∈ L, v ≠ LuaValue.nil)
    (hp : LuaPopulateVectorFrom1DArray "chiCutMesh" L 1 = Except.ok (p0 :: p1 :: p2 :: prest))
    (hn : LuaPopulateVectorFrom1DArray "chiCutMesh" L 2 = Except.ok (n0 :: n1 :: n2 :: nrest))
    (hg : w.current_handler.grid = some grid) :
    (chiCutMesh kernel w L).completion = Completion.returned 0 ∧
    (chiCutMesh kernel w L).trace =
      [Event.GetCurrentHandler, Event.GetGrid,
       Event.CutMeshWithPlane (forwarded grid p0 p1 p2 n0 n1 n2 L)] ∧
    cutCalls (chiCutMesh kernel w L).trace = [forwarded grid p0 p1 p2 n0 n1 n2 L] ∧
    (forwarded grid p0 p1 p2 n0 n1 n2 L).mesh = grid ∧
    (chiCutMesh kernel w L).world =
      ⟨⟨some (kernel grid ⟨p0, p1, p2⟩ ⟨n0, n1, n2⟩
          (forwarded grid p0 p1 p2 n0 n1 n2 L).merge_tolerance
          (forwarded grid p0 p1 p2 n0 n1 n2 L).float_compare)⟩⟩ := by
  have hacc : argumentsAccepted L :=
    ⟨hlen.1, lua_isnil_of_no_nil hnil 1, lua_isnil_of_no_nil hnil 2,
     fun _ => lua_isnil_of_no_nil hnil 3, fun _ => lua_isnil_of_no_nil hnil 4,
     ⟨_, hp⟩, ⟨_, hn⟩⟩
  have he := chiCutMesh_of_accepted kernel w L _ _ hacc hp hn
  have hgrid : (GetCurrentHandler w).GetGrid = Except.ok grid := by
    simp only [GetCurrentHandler, MeshHandler.GetGrid, hg]
  rw [hgrid] at he
  rw [he]
  exact ⟨rfl, rfl, rfl, rfl, rfl⟩

/-- Witness of C10: a four-argument call on a loaded mesh. -/
theorem chiCutMesh_success_witness :
    (chiCutMesh countingKernel loadedWorld planeAndBoth).completion = Completion.returned 0 ∧
    (chiCutMesh countingKernel loadedWorld planeAndBoth).trace =
      [Event.GetCurrentHandler, Event.GetGrid,
       Event.CutMeshWithPlane (forwarded 0 1 2 3 0 0 2 planeAndBoth)] ∧
    cutCalls (chiCutMesh countingKernel loadedWorld planeAndBoth).trace =
      [forwarded 0 1 2 3 0 0 2 planeAndBoth] ∧
    (forwarded (0 : CutCount) 1 2 3 0 0 2 planeAndBoth).mesh = 0 ∧
    (chiCutMesh countingKernel loadedWorld planeAndBoth).world =
      ⟨⟨some (countingKernel 0 ⟨1, 2, 3⟩ ⟨0, 0, 2⟩
          (forwarded (0 : CutCount) 1 2 3 0 0 2 planeAndBoth).merge_tolerance
          (forwarded (0 : CutCount) 1 2 3 0 0 2 planeAndBoth).float_compare)⟩⟩ :=
  chiCutMesh_success countingKernel loadedWorld planeAndBoth 0 1 2 3 [4] 0 0 2 [9]
    ⟨by decide, by decide⟩ (by decide) rfl rfl rfl

end OpenSn
